import Mathlib

/-!
Shallow embedding of the data-trans IoT pipeline (Go) for checking its
natural-language specification.

The embedding follows the repository sources:
* `transformer` package (Manager, newTransformer, Transform, ReloadTransformer,
  ParseDeviceData / ToMap, DeviceData / DeviceAttribute),
* `mqtt` package (GetDeviceTypeFromTopic, createMessageHandler),
* `storage` package (MySQLStorage.Store, PostgreSQLStorage.Store),
* `config` package (WatchConfig debounce),
* `logger` package (ParseLogLevel, InitFromConfig, package-level dispatch).

External effects (the goja JavaScript VM, the SQL driver, the file system)
are modelled by explicit oracles/environments; machine-level I/O outcomes
become boolean/optional fields of those environments.
-/

namespace DataTrans

/-- Language-neutral value tree exchanged with the script runtime: the
possible shapes of `result.Export()` (goja) seen by `encoding/json`.
`unsupported` stands for the exported Go values `json.Marshal` rejects
(functions, channels, NaN/Inf floats). -/
inductive JValue where
  | null
  | bool (b : Bool)
  | num (n : Int)
  | str (s : String)
  | arr (elems : List JValue)
  | obj (fields : List (String × JValue))
  | unsupported
  deriving Repr, BEq

mutual

/-- `json.Marshal` succeeds on a value iff it contains no unsupported leaf. -/
def marshalable : JValue → Bool
  | .null => true
  | .bool _ => true
  | .num _ => true
  | .str _ => true
  | .unsupported => false
  | .arr xs => marshalableList xs
  | .obj kvs => marshalableFields kvs

/-- `marshalable` on every element of an array. -/
def marshalableList : List JValue → Bool
  | [] => true
  | x :: xs => marshalable x && marshalableList xs

/-- `marshalable` on every value of a mapping. -/
def marshalableFields : List (String × JValue) → Bool
  | [] => true
  | kv :: kvs => marshalable kv.2 && marshalableFields kvs

end

/-- `transformer.DeviceAttribute` (mqtt/client.go companion file):
name, type, value (interface\x7b\x7d), unit, quality, metadata (interface\x7b\x7d). -/
structure DeviceAttribute where
  name : String
  type : String
  value : JValue
  unit : String
  quality : Int
  metadata : JValue
  deriving Repr, BEq

/-- `transformer.DeviceData`: the canonical telemetry record. -/
structure DeviceData where
  deviceName : String
  deviceType : String
  timestamp : Int
  attributes : List DeviceAttribute
  metadata : List (String × JValue)
  deriving Repr, BEq

/-- The zero value of `transformer.DeviceData` (what `var deviceData DeviceData`
starts from before `json.Unmarshal`). -/
def DeviceData.zero : DeviceData :=
  { deviceName := "", deviceType := "", timestamp := 0, attributes := [], metadata := [] }

/-- The zero value of `transformer.DeviceAttribute`. -/
def DeviceAttribute.zero : DeviceAttribute :=
  { name := "", type := "", value := .null, unit := "", quality := 0, metadata := .null }

/-- ASCII lower-casing, character by character (kernel-computable stand-in
for `strings.ToLower` on the ASCII strings this code compares). -/
def asciiLower (s : String) : String :=
  ⟨s.data.map Char.toLower⟩

/-- ASCII upper-casing, character by character (kernel-computable stand-in
for `strings.ToUpper` on the ASCII strings this code compares). -/
def asciiUpper (s : String) : String :=
  ⟨s.data.map Char.toUpper⟩

/-- ASCII case-insensitive key match: `encoding/json` prefers an exact tag
match but also accepts a case-insensitive one. -/
def keyMatches (key tag : String) : Bool :=
  key = tag || asciiLower key = tag

/-- `json.Unmarshal` of a JSON value into a Go `string` field. -/
def decodeString : JValue → Except String String
  | .str s => .ok s
  | _ => .error "cannot unmarshal into string"

/-- `json.Unmarshal` of a JSON value into a Go `int64`/`int` field. -/
def decodeInt : JValue → Except String Int
  | .num n => .ok n
  | _ => .error "cannot unmarshal into int64"

/-- `json.Unmarshal` of one array element into `DeviceAttribute`:
a JSON null leaves the zero value, an object sets the tagged fields
(unknown keys ignored), anything else is a type error. -/
def decodeAttr : JValue → Except String DeviceAttribute
  | .null => .ok DeviceAttribute.zero
  | .obj fields =>
    fields.foldlM (fun (acc : DeviceAttribute) kv =>
      if keyMatches kv.1 "name" then
        (decodeString kv.2).map (fun s => { acc with name := s })
      else if keyMatches kv.1 "type" then
        (decodeString kv.2).map (fun s => { acc with type := s })
      else if keyMatches kv.1 "value" then
        .ok { acc with value := kv.2 }
      else if keyMatches kv.1 "unit" then
        (decodeString kv.2).map (fun s => { acc with unit := s })
      else if keyMatches kv.1 "quality" then
        (decodeInt kv.2).map (fun n => { acc with quality := n })
      else if keyMatches kv.1 "metadata" then
        .ok { acc with metadata := kv.2 }
      else
        .ok acc) DeviceAttribute.zero
  | _ => .error "cannot unmarshal into DeviceAttribute"

/-- `json.Unmarshal` into the `[]DeviceAttribute` field: null leaves the nil
slice, an array decodes element-wise, anything else is a type error. -/
def decodeAttrs : JValue → Except String (List DeviceAttribute)
  | .null => .ok []
  | .arr xs => xs.mapM decodeAttr
  | _ => .error "cannot unmarshal into []DeviceAttribute"

/-- `json.Unmarshal` into the `map[string]interface\x7b\x7d` field: null leaves the
nil map, an object becomes the map, anything else is a type error. -/
def decodeMeta : JValue → Except String (List (String × JValue))
  | .null => .ok []
  | .obj fields => .ok fields
  | _ => .error "cannot unmarshal into map[string]interface"

/-- `json.Unmarshal(jsonData, &deviceData)` where `jsonData` is the
serialization of the exported script result: JSON null leaves the zero
struct untouched (Go treats null as absent), a JSON object fills the
tagged fields, every other top-level shape is a type error. -/
def decodeDeviceData : JValue → Except String DeviceData
  | .null => .ok DeviceData.zero
  | .obj fields =>
    fields.foldlM (fun (acc : DeviceData) kv =>
      if keyMatches kv.1 "device_name" then
        (decodeString kv.2).map (fun s => { acc with deviceName := s })
      else if keyMatches kv.1 "device_type" then
        (decodeString kv.2).map (fun s => { acc with deviceType := s })
      else if keyMatches kv.1 "timestamp" then
        (decodeInt kv.2).map (fun n => { acc with timestamp := n })
      else if keyMatches kv.1 "attributes" then
        (decodeAttrs kv.2).map (fun l => { acc with attributes := l })
      else if keyMatches kv.1 "metadata" then
        (decodeMeta kv.2).map (fun m => { acc with metadata := m })
      else
        .ok acc) DeviceData.zero
  | _ => .error "cannot unmarshal into DeviceData"

/-- Errors of the transformation path (`Manager.Transform`). -/
inductive TransformError where
  | noTransformerForType (deviceType : String)
  | invokeFailed (msg : String)
  | marshalResultFailed
  | decodeFailed (msg : String)
  deriving Repr, BEq, DecidableEq

/-- The canonicalization tail of `Manager.Transform` (part_004 lines 173-193):
`json.Marshal` the exported result, `json.Unmarshal` it into `DeviceData`,
then fill an empty `DeviceType` with the dispatcher-provided type. -/
def canonicalize (deviceType : String) (jsResult : JValue) : Except TransformError DeviceData :=
  if !marshalable jsResult then
    .error .marshalResultFailed
  else
    match decodeDeviceData jsResult with
    | .error e => .error (.decodeFailed e)
    | .ok d =>
      if d.deviceType = "" then
        .ok { d with deviceType := deviceType }
      else
        .ok d

/-- `transformer.ToMap` (device_data.go lines 45-65): succeeds exactly on
mappings (the exported script values with map shape). -/
def ToMap : JValue → Except String (List (String × JValue))
  | .obj fields => .ok fields
  | v => .error ("cannot convert to map: " ++ reprStr v)

/-- `transformer.ParseDeviceData` (device_data.go lines 68-80): converts the
value to a map and rejects any map that carries an `error` key.  In the
repository this function is never called from the transformation path. -/
def ParseDeviceData (_deviceType : String) (data : JValue) :
    Except String (List (String × JValue)) :=
  match ToMap data with
  | .error e => .error ("conversion failed: " ++ e)
  | .ok m =>
    match m.lookup "error" with
    | some errVal => .error ("data transform error: " ++ reprStr errVal)
    | none => .ok m

/-! ## Transformer registry (`transformer` package, part_004) -/

/-- `config.Transformer`: script source for one device type. -/
structure TransformerConfig where
  scriptPath : String
  scriptCode : String
  deriving Repr, BEq, DecidableEq

/-- The value of `vm.Get "transform"` after a successful script evaluation:
either a callable (modelled by its input/output behaviour) or some
non-callable value.  `none` at the use site models a `nil` lookup. -/
inductive GojaValue where
  | callable (f : String → Except String JValue)
  | notCallable

/-- Oracle for the external effects of building a transformer: reading a
script file and evaluating it in a fresh goja VM. -/
structure GojaEnv where
  readFile : String → Option String
  runString : String → Option String
  getTransform : String → Option GojaValue

/-- `transformer.Transformer`: a VM whose retained `transform` callable is
modelled by its behaviour. -/
structure Transformer where
  invoke : String → Except String JValue
  scriptPath : String

/-- `newTransformer` (part_004 lines 69-155): evaluate the script; a failure
is fatal; then `vm.Get "transform"` must be non-nil and callable. -/
def newTransformer (env : GojaEnv) (scriptCode scriptPath : String) :
    Except String Transformer :=
  match env.runString scriptCode with
  | some e => .error ("script execution failed: " ++ e)
  | none =>
    match env.getTransform scriptCode with
    | none => .error "script does not define a transform function"
    | some .notCallable => .error "transform is not a function"
    | some (.callable f) => .ok { invoke := f, scriptPath := scriptPath }

/-- Script-source resolution shared by `NewManager` and `ReloadTransformer`:
inline `script_code` takes precedence, then `script_path` is read from the
file system, otherwise the configuration is rejected. -/
def resolveScriptCode (env : GojaEnv) (cfg : TransformerConfig) : Except String String :=
  if cfg.scriptCode ≠ "" then
    .ok cfg.scriptCode
  else if cfg.scriptPath ≠ "" then
    match env.readFile cfg.scriptPath with
    | none => .error ("cannot load script file " ++ cfg.scriptPath)
    | some code => .ok code
  else
    .error "no script code or script path provided"

/-- One loop iteration of `NewManager` / the build phase of
`ReloadTransformer`: resolve the source, then construct the transformer. -/
def buildTransformer (env : GojaEnv) (cfg : TransformerConfig) : Except String Transformer :=
  match resolveScriptCode env cfg with
  | .error e => .error e
  | .ok code => newTransformer env code cfg.scriptPath

/-- `transformer.Manager`: the registry `map[string]*Transformer`, modelled
as an association list where the most recent binding for a key shadows
earlier ones. -/
structure Manager where
  transformers : List (String × Transformer)

/-- Go map assignment `m.transformers[deviceType] = transformer`. -/
def Manager.insert (m : Manager) (deviceType : String) (tr : Transformer) : Manager :=
  ⟨(deviceType, tr) :: m.transformers⟩

/-- Go map lookup `m.transformers[deviceType]`. -/
def Manager.find (m : Manager) (deviceType : String) : Option Transformer :=
  m.transformers.lookup deviceType

/-- The `for deviceType, cfg := range configs` loop of `NewManager`,
carrying the partially built registry: the first failing entry aborts the
whole construction. -/
def buildAll (env : GojaEnv) (m : Manager) :
    List (String × TransformerConfig) → Except String Manager
  | [] => .ok m
  | entry :: rest =>
    match buildTransformer env entry.2 with
    | .error e =>
      .error ("failed to create transformer for device type " ++ entry.1 ++ ": " ++ e)
    | .ok tr => buildAll env (m.insert entry.1 tr) rest

/-- `transformer.NewManager` (part_004 lines 30-66): build one transformer
per configured device type, starting from an empty registry. -/
def NewManager (env : GojaEnv) (configs : List (String × TransformerConfig)) :
    Except String Manager :=
  buildAll env ⟨[]⟩ configs

/-- `Manager.Transform` (part_004 lines 158-194): look up the transformer,
invoke the script's `transform`, then canonicalize the exported result. -/
def Manager.transform (m : Manager) (deviceType data : String) :
    Except TransformError DeviceData :=
  match m.find deviceType with
  | none => .error (.noTransformerForType deviceType)
  | some tr =>
    match tr.invoke data with
    | .error e => .error (.invokeFailed e)
    | .ok jsResult => canonicalize deviceType jsResult

/-- `Manager.ReloadTransformer` (part_004 lines 197-228): build the new
transformer first; only on success is the registry entry replaced.  The
pair returns the Go error value together with the registry state after the
call. -/
def Manager.reloadTransformer (env : GojaEnv) (m : Manager) (deviceType : String)
    (cfg : TransformerConfig) : Except String Unit × Manager :=
  match buildTransformer env cfg with
  | .error e => (.error ("failed to create transformer: " ++ e), m)
  | .ok tr => (.ok (), m.insert deviceType tr)

/-! ## Topic parsing and the message handler (`mqtt/client.go`) -/

/-- Whether the regex `devices/([^/]+)/.*` matches starting at this exact
position, and if so the text of its capture group: the literal
`devices/`, then a maximal non-empty run of non-slash characters
captured by `[^/]+`, then a literal `/` (after which `.*` always
matches). -/
def matchesAt (s : List Char) : Option (List Char) :=
  if ("devices/").data.isPrefixOf s then
    let rest := s.drop 8
    let seg := rest.takeWhile (fun c => c ≠ '/')
    match seg, rest.drop seg.length with
    | _ :: _, '/' :: _ => some seg
    | _, _ => none
  else
    none

/-- `regexp.FindStringSubmatch` for the unanchored pattern
`devices/([^/]+)/.*`: the match starting at the leftmost possible
position wins (RE2 leftmost semantics). -/
def regexFindSubmatch : List Char → Option (List Char)
  | [] => none
  | c :: rest =>
    match matchesAt (c :: rest) with
    | some seg => some seg
    | none => regexFindSubmatch rest

/-- `strings.Split(topic, "/")`. -/
def splitOnSlash : List Char → List (List Char)
  | [] => [[]]
  | c :: rest =>
    if c = '/' then
      [] :: splitOnSlash rest
    else
      match splitOnSlash rest with
      | seg :: segs => (c :: seg) :: segs
      | [] => [[c]]

/-- `mqtt.GetDeviceTypeFromTopic` (client.go lines 181-197): first the
(unanchored) regex, then the split fallback, else the empty string. -/
def GetDeviceTypeFromTopic (topic : String) : String :=
  match regexFindSubmatch topic.data with
  | some seg => ⟨seg⟩
  | none =>
    let parts := splitOnSlash topic.data
    if parts.length ≥ 2 && parts.getD 0 [] = ("devices").data then
      ⟨parts.getD 1 []⟩
    else
      ""

/-- Device-type extraction as the spec sentence words it, with the regex
anchored at the start of the topic (`^devices/([^/]+)/.*`). -/
def claimAnchoredExtract (topic : String) : String :=
  match matchesAt topic.data with
  | some seg => ⟨seg⟩
  | none =>
    let parts := splitOnSlash topic.data
    if parts.length ≥ 2 && parts.getD 0 [] = ("devices").data then
      ⟨parts.getD 1 []⟩
    else
      ""

/-- Device-type extraction with the regex explicitly unanchored: the capture
of the match at the first position (scanning left to right) where the
pattern matches, with the same split fallback. -/
def specUnanchoredExtract (topic : String) : String :=
  match (List.range topic.data.length).findSome? (fun i => matchesAt (topic.data.drop i)) with
  | some seg => ⟨seg⟩
  | none =>
    let parts := splitOnSlash topic.data
    if parts.length ≥ 2 && parts.getD 0 [] = ("devices").data then
      ⟨parts.getD 1 []⟩
    else
      ""

/-- Outcome of one `createMessageHandler` callback invocation. -/
inductive HandlerOutcome where
  | droppedNoType
  | transformFailed (e : TransformError)
  | stored (deviceType : String) (record : DeviceData)
  deriving BEq

/-- `createMessageHandler` (client.go lines 74-100): empty extracted type →
warn and drop; transform error → log and drop; otherwise the record is
handed to the storage fan-out. -/
def handleMessage (m : Manager) (topic payload : String) : HandlerOutcome :=
  let deviceType := GetDeviceTypeFromTopic topic
  if deviceType = "" then
    .droppedNoType
  else
    match m.transform deviceType payload with
    | .error e => .transformFailed e
    | .ok result => .stored deviceType result

/-! ## SQL sinks (`storage/mysql.go`, `storage/postgresql.go`) -/

/-- Statements issued on the database connection during `Store`, in order. -/
inductive DBAction where
  | beginTx
  | insertDeviceData
  | insertAttributes
  | commitTx
  | rollbackTx
  deriving Repr, BEq, DecidableEq

/-- The failure cases of `Store`, one per early return. -/
inductive StoreError where
  | beginFailed
  | marshalMetadataFailed
  | insertDeviceDataFailed
  | lastInsertIdFailed
  | marshalAttrMetadataFailed
  | insertAttributesFailed
  | commitFailed
  deriving Repr, BEq, DecidableEq

/-- Oracle for the SQL driver: whether each round-trip succeeds. -/
structure DBEnv where
  beginOk : Bool
  insertDeviceDataOk : Bool
  lastInsertIdOk : Bool
  insertAttributesOk : Bool
  commitOk : Bool
  deriving Repr

/-- `MySQLStorage.Store` (mysql.go lines 149-219) as the trace of statements
it issues plus its returned error.  The deferred cleanup rolls back only
when the function-scope `err` is non-nil at return; inside the attribute
loop `attrMetadataJSON, err := json.Marshal(attr.Metadata)` declares a new
`err`, so a marshal failure there returns without triggering the deferred
rollback. -/
def mysqlStore (env : DBEnv) (data : DeviceData) : List DBAction × Option StoreError :=
  if !env.beginOk then
    ([.beginTx], some .beginFailed)
  else if !marshalableFields data.metadata then
    ([.beginTx, .rollbackTx], some .marshalMetadataFailed)
  else if !env.insertDeviceDataOk then
    ([.beginTx, .insertDeviceData, .rollbackTx], some .insertDeviceDataFailed)
  else if !env.lastInsertIdOk then
    ([.beginTx, .insertDeviceData, .rollbackTx], some .lastInsertIdFailed)
  else if data.attributes.isEmpty then
    if !env.commitOk then
      ([.beginTx, .insertDeviceData, .commitTx, .rollbackTx], some .commitFailed)
    else
      ([.beginTx, .insertDeviceData, .commitTx], none)
  else if !(data.attributes.all (fun a => marshalable a.metadata)) then
    ([.beginTx, .insertDeviceData], some .marshalAttrMetadataFailed)
  else if !env.insertAttributesOk then
    ([.beginTx, .insertDeviceData, .insertAttributes, .rollbackTx], some .insertAttributesFailed)
  else if !env.commitOk then
    ([.beginTx, .insertDeviceData, .insertAttributes, .commitTx, .rollbackTx], some .commitFailed)
  else
    ([.beginTx, .insertDeviceData, .insertAttributes, .commitTx], none)

/-- `PostgreSQLStorage.Store` (postgresql.go lines 187-256): identical shape,
except the insert and id retrieval are one `QueryRow(... RETURNING id)`
round-trip.  The same `err` shadowing skips the deferred rollback on an
attribute-metadata marshal failure. -/
def pgStore (env : DBEnv) (data : DeviceData) : List DBAction × Option StoreError :=
  if !env.beginOk then
    ([.beginTx], some .beginFailed)
  else if !marshalableFields data.metadata then
    ([.beginTx, .rollbackTx], some .marshalMetadataFailed)
  else if !env.insertDeviceDataOk then
    ([.beginTx, .insertDeviceData, .rollbackTx], some .insertDeviceDataFailed)
  else if data.attributes.isEmpty then
    if !env.commitOk then
      ([.beginTx, .insertDeviceData, .commitTx, .rollbackTx], some .commitFailed)
    else
      ([.beginTx, .insertDeviceData, .commitTx], none)
  else if !(data.attributes.all (fun a => marshalable a.metadata)) then
    ([.beginTx, .insertDeviceData], some .marshalAttrMetadataFailed)
  else if !env.insertAttributesOk then
    ([.beginTx, .insertDeviceData, .insertAttributes, .rollbackTx], some .insertAttributesFailed)
  else if !env.commitOk then
    ([.beginTx, .insertDeviceData, .insertAttributes, .commitTx, .rollbackTx], some .commitFailed)
  else
    ([.beginTx, .insertDeviceData, .insertAttributes, .commitTx], none)

/-! ## Configuration watcher debounce (`config/config.go` lines 82-110) -/

/-- The debounce interval, in milliseconds (`2 * time.Second`). -/
def debounceMs : Int := 2000

/-- One fsnotify event as seen by the `OnConfigChange` callback: the time at
which the callback runs (`time.Now()`, in milliseconds) and whether
`e.Op & fsnotify.Write == fsnotify.Write`. -/
structure FsEvent where
  time : Int
  opWrite : Bool
  deriving Repr

/-- One run of the `OnConfigChange` closure over the captured
`lastChangeTime`: returns the updated `lastChangeTime` and whether the
event was delivered (i.e. the reload path past the debounce check runs). -/
def watchStep (last : Int) (e : FsEvent) : Int × Bool :=
  if e.opWrite then
    if e.time - last < debounceMs then
      (last, false)
    else
      (e.time, true)
  else
    (last, false)

/-- The sequence of delivered reload times for a sequence of file events
(the watcher task handles events one at a time). -/
def runWatcher (last : Int) : List FsEvent → List Int
  | [] => []
  | e :: es =>
    let step := watchStep last e
    if step.2 then
      e.time :: runWatcher step.1 es
    else
      runWatcher step.1 es

/-! ## Logger (`logger/logger.go`, part_002) -/

/-- `logger.LogLevel`. -/
inductive GoLogLevel where
  | debug
  | info
  | warn
  | error
  deriving Repr, BEq, DecidableEq

/-- `logger.ParseLogLevel` (part_002 lines 56-69): switch on
`strings.ToUpper(level)`, with `WARN` and `WARNING` sharing a case;
unknown levels yield INFO together with an error value whose message
carries the original input. -/
def ParseLogLevel (level : String) : GoLogLevel × Option String :=
  if asciiUpper level = "DEBUG" then (.debug, none)
  else if asciiUpper level = "INFO" then (.info, none)
  else if asciiUpper level = "WARN" || asciiUpper level = "WARNING" then (.warn, none)
  else if asciiUpper level = "ERROR" then (.error, none)
  else (.info, some ("unknown log level: " ++ level ++ ", using default level INFO"))

/-- The observable state of one `logger.Logger`: its level, configuration
and whether its output writer has been closed. -/
structure GoLogger where
  level : GoLogLevel
  filePath : String
  maxSize : Int
  maxBackups : Int
  console : Bool
  closed : Bool
  deriving Repr, BEq, DecidableEq

/-- Oracle for `logger.New`: whether the directory/file I/O succeeds. -/
structure LogEnv where
  newOk : Bool
  deriving Repr

/-- `logger.New`: on I/O success returns a fresh (open) logger with the
given configuration. -/
def NewLogger (env : LogEnv) (level : GoLogLevel) (filePath : String)
    (maxSize maxBackups : Int) (console : Bool) : Except String GoLogger :=
  if env.newOk then
    .ok { level := level, filePath := filePath, maxSize := maxSize,
          maxBackups := maxBackups, console := console, closed := false }
  else
    .error "failed to open log file"

/-- `Logger.Close` (logger.go lines 293-301): closes the output writer. -/
def closeLogger (l : GoLogger) : GoLogger :=
  { l with closed := true }

/-- `logger.InitFromConfig` (part_002 lines 26-53) as a transition on the
package-global `defaultLogger`: close the existing logger first, then
parse the level and construct the replacement; each failure returns the
error with the global left pointing at the closed previous instance. -/
def InitFromConfig (env : LogEnv) (st : Option GoLogger) (level filePath : String)
    (maxSize maxBackups : Int) (console : Bool) :
    Except String Unit × Option GoLogger :=
  let st1 := match st with
    | some l => some (closeLogger l)
    | none => none
  match ParseLogLevel level with
  | (_, some e) => (.error e, st1)
  | (lvl, none) =>
    match NewLogger env lvl filePath maxSize maxBackups console with
    | .error e => (.error e, st1)
    | .ok l => (.ok (), some l)

/-- Where a package-level `Debug`/`Info`/`Warn`/`Error` call lands. -/
inductive LogTarget where
  | viaDefaultLogger (l : GoLogger)
  | viaStdLog
  deriving BEq

/-- The dispatch shared by the package-level logging functions (part_002
lines 72-105): the default logger when installed, else the standard log. -/
def logDispatch (st : Option GoLogger) : LogTarget :=
  match st with
  | some l => .viaDefaultLogger l
  | none => .viaStdLog

/-- Whether an exported script result is a mapping. -/
def JValue.isMapping : JValue → Bool
  | .obj _ => true
  | _ => false

/-! ## Concrete instances used by the theorems below -/

/-- A registry whose only transformer reports a failure the way the shipped
scripts do: by returning a mapping with an `error` field. -/
def errScriptManager : Manager :=
  ⟨[("temperature",
     { invoke := fun _ => .ok (.obj [("error", .str "Invalid data format")]),
       scriptPath := "" })]⟩

/-- The record `Manager.Transform` produces from that error mapping. -/
def emptyTemperatureRecord : DeviceData :=
  { deviceName := "", deviceType := "temperature", timestamp := 0,
    attributes := [], metadata := [] }

/-- SQL driver oracle in which every round-trip succeeds. -/
def dbEnvAllOk : DBEnv :=
  { beginOk := true, insertDeviceDataOk := true, lastInsertIdOk := true,
    insertAttributesOk := true, commitOk := true }

/-- SQL driver oracle in which the `device_data` insert fails. -/
def dbEnvInsertFails : DBEnv :=
  { dbEnvAllOk with insertDeviceDataOk := false }

/-- A record whose single attribute carries metadata that `json.Marshal`
rejects (a function value, a channel, a NaN float, ...). -/
def badAttrRecord : DeviceData :=
  { deviceName := "t1", deviceType := "temperature", timestamp := 1700000000000,
    attributes := [{ name := "temperature", type := "float", value := .num 25,
                     unit := "C", quality := 100, metadata := .unsupported }],
    metadata := [] }

/-- The same record with serializable attribute metadata. -/
def goodAttrRecord : DeviceData :=
  { deviceName := "t1", deviceType := "temperature", timestamp := 1700000000000,
    attributes := [{ name := "temperature", type := "float", value := .num 25,
                     unit := "C", quality := 100, metadata := .obj [] }],
    metadata := [] }

/-! ## Claims -/

/-- C1: the spec says a mapping with a non-empty `error` field becomes a
`ScriptReportedError` and the message is dropped.  The pipeline's
`Manager.Transform` instead JSON-round-trips the mapping into
`DeviceData`, where the unknown `error` key is ignored: no error is
returned, an empty record (with `device_type` filled in) is produced and
handed to storage.  The repository's `ParseDeviceData`, which does
implement the check, is called from nowhere. -/
theorem C1_error_mapping_not_dropped :
    Manager.transform errScriptManager "temperature" "not json" =
      .ok emptyTemperatureRecord ∧
    handleMessage errScriptManager "devices/temperature/t1" "not json" =
      .stored "temperature" emptyTemperatureRecord ∧
    ParseDeviceData "temperature" (.obj [("error", .str "Invalid data format")]) =
      .error ("data transform error: " ++ reprStr (JValue.str "Invalid data format")) :=
  ⟨rfl, rfl, rfl⟩

/-- C2: on an attribute-metadata serialization failure, both SQL `Store`
implementations return the error but issue neither a `ROLLBACK` nor a
`COMMIT` — the `:=` inside the attribute loop shadows the function-scope
`err` that the deferred rollback inspects.  Every other failure (shown
here for the `device_data` insert) does roll back, and the success path
is begin / insert / batch-insert / commit. -/
theorem C2_attr_metadata_failure_skips_rollback :
    mysqlStore dbEnvAllOk badAttrRecord =
      ([.beginTx, .insertDeviceData], some .marshalAttrMetadataFailed) ∧
    pgStore dbEnvAllOk badAttrRecord =
      ([.beginTx, .insertDeviceData], some .marshalAttrMetadataFailed) ∧
    (mysqlStore dbEnvAllOk badAttrRecord).1.contains .rollbackTx = false ∧
    (pgStore dbEnvAllOk badAttrRecord).1.contains .rollbackTx = false ∧
    mysqlStore dbEnvInsertFails goodAttrRecord =
      ([.beginTx, .insertDeviceData, .rollbackTx], some .insertDeviceDataFailed) ∧
    pgStore dbEnvInsertFails goodAttrRecord =
      ([.beginTx, .insertDeviceData, .rollbackTx], some .insertDeviceDataFailed) ∧
    mysqlStore dbEnvAllOk goodAttrRecord =
      ([.beginTx, .insertDeviceData, .insertAttributes, .commitTx], none) ∧
    pgStore dbEnvAllOk goodAttrRecord =
      ([.beginTx, .insertDeviceData, .insertAttributes, .commitTx], none) :=
  ⟨rfl, rfl, rfl, rfl, rfl, rfl, rfl, rfl⟩

/-- C3 (counterexample): a script result of JSON null is claimed to yield a
`BadScriptResult` error, but `json.Unmarshal` treats a top-level null as
absent data, so canonicalization succeeds and produces the zero record
with `device_type` filled from the dispatcher. -/
theorem C3_null_result_is_accepted :
    canonicalize "humidity" JValue.null =
      .ok { deviceName := "", deviceType := "humidity", timestamp := 0,
            attributes := [], metadata := [] } :=
  rfl

/-- C3 (amended): every exported script result that is neither a mapping nor
null makes the canonicalization step of `Manager.Transform` return an
error (a serialization failure or a `DeviceData` decode failure), so no
record is produced for it. -/
theorem C3_non_mapping_non_null_is_error (deviceType : String) (v : JValue)
    (hobj : v.isMapping = false) (hnull : v ≠ .null) :
    ∃ e, canonicalize deviceType v = .error e := by
  cases v with
  | null => exact absurd rfl hnull
  | obj fields => simp [JValue.isMapping] at hobj
  | bool b => exact ⟨_, rfl⟩
  | num n => exact ⟨_, rfl⟩
  | str s => exact ⟨_, rfl⟩
  | unsupported => exact ⟨_, rfl⟩
  | arr xs =>
    by_cases h : marshalableList xs
    · exact ⟨.decodeFailed "cannot unmarshal into DeviceData", by
        simp [canonicalize, marshalable, h, decodeDeviceData]⟩
    · exact ⟨.marshalResultFailed, by
        simp [canonicalize, marshalable, h]⟩

/-- C3 (witness for the amended theorem): a numeric script result is
rejected by canonicalization. -/
theorem C3_witness :
    (JValue.num 5).isMapping = false ∧ JValue.num 5 ≠ JValue.null ∧
    ∃ e, canonicalize "t" (JValue.num 5) = .error e :=
  ⟨rfl, fun h => JValue.noConfusion h,
   C3_non_mapping_non_null_is_error "t" (JValue.num 5) rfl (fun h => JValue.noConfusion h)⟩

/-- The leftmost-position scan of `regexFindSubmatch` coincides with trying
the pattern at every start position in ascending order. -/
theorem regexFind_eq_findSome (cs : List Char) :
    regexFindSubmatch cs =
      (List.range cs.length).findSome? (fun i => matchesAt (cs.drop i)) := by
  induction cs with
  | nil => rfl
  | cons c rest ih =>
    rw [List.length_cons, List.range_succ_eq_map, List.findSome?_cons]
    cases h : matchesAt (c :: rest) with
    | some seg => simp [regexFindSubmatch, h]
    | none =>
      have hmap : (List.map (fun i => i + 1) (List.range rest.length)).findSome?
            (fun i => matchesAt ((c :: rest).drop i)) =
          (List.range rest.length).findSome? (fun i => matchesAt (rest.drop i)) := by
        induction List.range rest.length with
        | nil => rfl
        | cons a l ihl => simp [List.findSome?_cons, ihl]
      simp only [regexFindSubmatch, h, List.drop_zero]
      rw [hmap, ih]

/-- A registry with no transformers. -/
def emptyManager : Manager := ⟨[]⟩

/-- C4 (counterexample): the code's regex is not anchored.  On the topic
`x/devices/t/d` the anchored extraction of the claim yields the empty
string (the regex fails at the start and the split fallback sees
`x ≠ devices`), but `GetDeviceTypeFromTopic` finds `devices/t/` in the
middle of the topic and returns `t`. -/
theorem C4_counterexample :
    GetDeviceTypeFromTopic "x/devices/t/d" = "t" ∧
    claimAnchoredExtract "x/devices/t/d" = "" :=
  ⟨rfl, rfl⟩

/-- C4 (amended): the extracted device type equals the first capture group
of the UNANCHORED regex `devices/([^/]+)/.*` — the match may begin at any
position, the leftmost one wins — with the stated split fallback and
empty-string default; and a message whose extracted type is empty is
dropped by the handler with a warning, never transformed or stored. -/
theorem C4_extraction_and_drop :
    (∀ topic : String, GetDeviceTypeFromTopic topic = specUnanchoredExtract topic) ∧
    (∀ (m : Manager) (topic payload : String),
        GetDeviceTypeFromTopic topic = "" →
        handleMessage m topic payload = .droppedNoType) := by
  constructor
  · intro topic
    unfold GetDeviceTypeFromTopic specUnanchoredExtract
    rw [regexFind_eq_findSome]
  · intro m topic payload h
    simp [handleMessage, h]

/-- C4 (witness): a topic outside the grammar is dropped. -/
theorem C4_witness :
    handleMessage emptyManager "foo/bar" "p" = .droppedNoType :=
  C4_extraction_and_drop.2 emptyManager "foo/bar" "p" rfl

/-- A successful canonicalization of a record coming from a non-empty
dispatcher type never leaves `device_type` empty. -/
theorem canonicalize_ok_deviceType {t : String} {v : JValue} {d : DeviceData}
    (ht : t ≠ "") (h : canonicalize t v = .ok d) : d.deviceType ≠ "" := by
  unfold canonicalize at h
  split at h
  · exact Except.noConfusion h
  · split at h
    · exact Except.noConfusion h
    · split at h
      · cases h
        simpa using ht
      · cases h
        assumption

/-- C5: every record the handler passes to the storage fan-out has a
non-empty `device_type`: the handler drops topics with an empty extracted
type, and `Manager.Transform` fills an empty `device_type` with the
dispatcher-provided type before returning. -/
theorem C5_stored_record_has_nonempty_type :
    ∀ (m : Manager) (topic payload deviceType : String) (r : DeviceData),
      handleMessage m topic payload = .stored deviceType r →
      r.deviceType ≠ "" := by
  intro m topic payload t r h
  unfold handleMessage at h
  by_cases h0 : GetDeviceTypeFromTopic topic = ""
  · simp [h0] at h
  · rw [if_neg h0] at h
    cases htr : Manager.transform m (GetDeviceTypeFromTopic topic) payload with
    | error e => rw [htr] at h; cases h
    | ok result =>
      rw [htr] at h
      cases h
      unfold Manager.transform at htr
      split at htr
      · exact Except.noConfusion htr
      · split at htr
        · exact Except.noConfusion htr
        · exact canonicalize_ok_deviceType h0 htr

/-- A registry whose only transformer returns an empty mapping. -/
def plainOkManager : Manager :=
  ⟨[("temp", { invoke := fun _ => .ok (.obj []), scriptPath := "" })]⟩

/-- C5 (witness): the record stored for `devices/temp/d1` carries the
topic-derived type. -/
theorem C5_witness :
    ({ deviceName := "", deviceType := "temp", timestamp := 0,
       attributes := [], metadata := [] } : DeviceData).deviceType ≠ "" :=
  C5_stored_record_has_nonempty_type plainOkManager "devices/temp/d1" "p" "temp"
    { deviceName := "", deviceType := "temp", timestamp := 0,
      attributes := [], metadata := [] } rfl

/-- Whether a Go-style result is an error. -/
def exceptIsError {ε α : Type} : Except ε α → Bool
  | .error _ => true
  | .ok _ => false

/-- Inserting a binding makes the key found. -/
theorem find_insert_self (m : Manager) (k : String) (tr : Transformer) :
    (m.insert k tr).find k = some tr := by
  simp [Manager.find, Manager.insert, List.lookup]

/-- The build loop only adds bindings, so keys already present stay found. -/
theorem buildAll_preserves_found (env : GojaEnv) (configs : List (String × TransformerConfig)) :
    ∀ (m m2 : Manager) (k : String),
      buildAll env m configs = .ok m2 → (m.find k).isSome → (m2.find k).isSome := by
  induction configs with
  | nil =>
    intro m m2 k h hk
    cases h
    exact hk
  | cons entry rest ih =>
    intro m m2 k h hk
    unfold buildAll at h
    split at h
    · exact Except.noConfusion h
    · rename_i tr hok
      refine ih _ _ _ h ?_
      by_cases he : entry.1 = k
      · subst he
        simp [find_insert_self]
      · have hne : (k == entry.1) = false :=
          beq_eq_false_iff_ne.mpr (fun hkk => he hkk.symm)
        have heq : (m.insert entry.1 tr).find k = m.find k := by
          simp [Manager.find, Manager.insert, List.lookup, hne]
        rw [heq]
        exact hk

/-- After a successful build loop every processed device type is found. -/
theorem buildAll_covers (env : GojaEnv) (configs : List (String × TransformerConfig)) :
    ∀ (m m2 : Manager),
      buildAll env m configs = .ok m2 →
      ∀ t cfg, (t, cfg) ∈ configs → (m2.find t).isSome := by
  induction configs with
  | nil =>
    intro m m2 _ t cfg hmem
    cases hmem
  | cons entry rest ih =>
    intro m m2 h t cfg hmem
    unfold buildAll at h
    split at h
    · exact Except.noConfusion h
    · cases hmem with
      | head =>
        exact buildAll_preserves_found env rest _ _ _ h (by simp [find_insert_self])
      | tail _ htail =>
        exact ih _ _ h t cfg htail

/-- A failing entry anywhere in the configuration fails the whole loop. -/
theorem buildAll_error_of_entry_error (env : GojaEnv)
    (configs : List (String × TransformerConfig)) :
    ∀ (m : Manager) (t : String) (cfg : TransformerConfig),
      (t, cfg) ∈ configs → exceptIsError (buildTransformer env cfg) = true →
      exceptIsError (buildAll env m configs) = true := by
  induction configs with
  | nil =>
    intro m t cfg hmem
    cases hmem
  | cons entry rest ih =>
    intro m t cfg hmem herr
    unfold buildAll
    split
    · rfl
    · cases hmem with
      | head =>
        rename_i tr hok
        rw [hok] at herr
        exact absurd herr (by simp [exceptIsError])
      | tail _ htail =>
        exact ih _ t cfg htail herr

/-- Canonicalization never reports a missing transformer. -/
theorem canonicalize_ne_noTransformer (t : String) (v : JValue) (t2 : String) :
    canonicalize t v ≠ .error (.noTransformerForType t2) := by
  unfold canonicalize
  split
  · intro h
    injection h with h1
    exact TransformError.noConfusion h1
  · split
    · intro h
      injection h with h1
      exact TransformError.noConfusion h1
    · split
      · exact fun h => Except.noConfusion h
      · exact fun h => Except.noConfusion h

/-- C6: when `NewManager` succeeds on a configuration map, every configured
device type is present in the registry and `Transform` on it never fails
with the no-transformer-for-type error; and if building any single entry
fails, the whole construction fails. -/
theorem C6_build_covers_configured_types :
    (∀ (env : GojaEnv) (configs : List (String × TransformerConfig)) (m : Manager),
        NewManager env configs = .ok m →
        ∀ t cfg, (t, cfg) ∈ configs →
          (m.find t).isSome = true ∧
          ∀ data, m.transform t data ≠ .error (.noTransformerForType t)) ∧
    (∀ (env : GojaEnv) (configs : List (String × TransformerConfig))
        (t : String) (cfg : TransformerConfig),
        (t, cfg) ∈ configs → exceptIsError (buildTransformer env cfg) = true →
        exceptIsError (NewManager env configs) = true) := by
  constructor
  · intro env configs m h t cfg hmem
    have hfound := buildAll_covers env configs ⟨[]⟩ m h t cfg hmem
    refine ⟨hfound, ?_⟩
    intro data
    unfold Manager.transform
    split
    · rename_i hnone
      rw [hnone] at hfound
      exact absurd hfound (by simp)
    · split
      · intro hcontra
        injection hcontra with h1
        exact TransformError.noConfusion h1
      · exact canonicalize_ne_noTransformer _ _ _
  · intro env configs t cfg hmem herr
    exact buildAll_error_of_entry_error env configs ⟨[]⟩ t cfg hmem herr

/-- The behaviour of the demo transform callable. -/
def demoTransformBehavior : String → Except String JValue :=
  fun _ => .ok JValue.null

/-- A goja oracle in which every script evaluates successfully and exports a
callable `transform`. -/
def demoGojaEnv : GojaEnv :=
  { readFile := fun _ => none,
    runString := fun _ => none,
    getTransform := fun _ => some (.callable demoTransformBehavior) }

/-- An inline-script configuration entry. -/
def demoConfig : TransformerConfig :=
  { scriptPath := "", scriptCode := "function transform(data) \x7b return null; \x7d" }

/-- The registry `NewManager` builds from `demoConfig`. -/
def demoManager : Manager :=
  ⟨[("temp", { invoke := demoTransformBehavior, scriptPath := "" })]⟩

/-- C6 (witness): a one-entry configuration builds a registry that resolves
its device type. -/
theorem C6_witness :
    (demoManager.find "temp").isSome = true ∧
    demoManager.transform "temp" "payload" ≠ .error (.noTransformerForType "temp") := by
  have h := C6_build_covers_configured_types.1 demoGojaEnv [("temp", demoConfig)]
    demoManager rfl "temp" demoConfig (List.mem_singleton.mpr rfl)
  exact ⟨h.1, h.2 "payload"⟩

/-- C7: a failed rebuild leaves the registry untouched (the prior
transformer stays in place and the error is returned), while a successful
rebuild swaps the freshly built transformer in. -/
theorem C7_reload_failure_keeps_prior :
    (∀ (env : GojaEnv) (m : Manager) (t : String) (cfg : TransformerConfig)
        (e : String) (m2 : Manager),
        Manager.reloadTransformer env m t cfg = (.error e, m2) →
        m2 = m) ∧
    (∀ (env : GojaEnv) (m : Manager) (t : String) (cfg : TransformerConfig)
        (u : Unit) (m2 : Manager),
        Manager.reloadTransformer env m t cfg = (.ok u, m2) →
        ∃ tr, buildTransformer env cfg = .ok tr ∧ m2 = m.insert t tr ∧
          m2.find t = some tr) := by
  constructor
  · intro env m t cfg e m2 h
    unfold Manager.reloadTransformer at h
    split at h
    · injection h with h1 h2
      exact h2.symm
    · injection h with h1 h2
      exact Except.noConfusion h1
  · intro env m t cfg u m2 h
    unfold Manager.reloadTransformer at h
    split at h
    · injection h with h1 h2
      exact Except.noConfusion h1
    · rename_i tr hok
      injection h with h1 h2
      exact ⟨tr, hok, h2.symm, h2 ▸ find_insert_self m t tr⟩

/-- The behaviour of the reloaded demo transform callable. -/
def demoReloadBehavior : String → Except String JValue :=
  fun _ => .ok (.obj [])

/-- A goja oracle whose file system serves one script file. -/
def demoReloadEnv : GojaEnv :=
  { readFile := fun _ => some "function transform(data) \x7b return \x7b\x7d; \x7d",
    runString := fun _ => none,
    getTransform := fun _ => some (.callable demoReloadBehavior) }

/-- The transformer built by a successful reload from `demoReloadEnv`. -/
def demoReloadTransformer : Transformer :=
  { invoke := demoReloadBehavior, scriptPath := "scripts/temp.js" }

/-- C7 (witness): a successful reload installs the new transformer. -/
theorem C7_witness :
    (Manager.reloadTransformer demoReloadEnv emptyManager "temp"
        ⟨"scripts/temp.js", ""⟩).2.find "temp" = some demoReloadTransformer := by
  obtain ⟨tr, hb, hm, hf⟩ := C7_reload_failure_keeps_prior.2 demoReloadEnv emptyManager
    "temp" ⟨"scripts/temp.js", ""⟩ ()
    (emptyManager.insert "temp" demoReloadTransformer) rfl
  have hb2 : buildTransformer demoReloadEnv ⟨"scripts/temp.js", ""⟩ =
      .ok demoReloadTransformer := rfl
  rw [hb] at hb2
  injection hb2 with htr
  rw [htr] at hf
  exact hf

/-- Delivered reload times are separated by at least the debounce interval,
and the first delivery is at least one interval after the captured
`lastChangeTime`. -/
theorem runWatcher_chain (events : List FsEvent) :
    ∀ last : Int,
      List.Chain' (fun a b => a + debounceMs ≤ b) (runWatcher last events) ∧
      (∀ x, (runWatcher last events).head? = some x → last + debounceMs ≤ x) := by
  induction events with
  | nil =>
    intro last
    exact ⟨List.chain'_nil, fun x hx => Option.noConfusion hx⟩
  | cons e es ih =>
    intro last
    by_cases hw : e.opWrite
    · by_cases hd : e.time - last < debounceMs
      · have hstep : runWatcher last (e :: es) = runWatcher last es := by
          simp [runWatcher, watchStep, hw, hd]
        rw [hstep]
        exact ih last
      · have hstep : runWatcher last (e :: es) = e.time :: runWatcher e.time es := by
          simp [runWatcher, watchStep, hw, hd]
        rw [hstep]
        refine ⟨List.chain'_cons'.mpr ⟨?_, (ih e.time).1⟩, ?_⟩
        · intro b hb
          exact (ih e.time).2 b hb
        · intro x hx
          injection hx with hx
          omega
    · have hstep : runWatcher last (e :: es) = runWatcher last es := by
        simp [runWatcher, watchStep, hw]
      rw [hstep]
      exact ih last

/-- A list whose consecutive elements are at least `debounceMs` apart has at
most one element inside any half-open window of length `debounceMs`. -/
theorem chain_window_at_most_one (l : List Int)
    (h : List.Chain' (fun a b => a + debounceMs ≤ b) l) (a : Int) :
    (l.filter (fun t => decide (a ≤ t) && decide (t < a + debounceMs))).length ≤ 1 := by
  haveI : IsTrans Int (fun x y : Int => x + debounceMs ≤ y) :=
    ⟨fun a b c hab hbc => by simp only [debounceMs] at hab hbc ⊢; omega⟩
  have hp : l.Pairwise (fun x y => x + debounceMs ≤ y) :=
    List.chain'_iff_pairwise.mp h
  have hpf := hp.filter (fun t => decide (a ≤ t) && decide (t < a + debounceMs))
  cases hf : l.filter (fun t => decide (a ≤ t) && decide (t < a + debounceMs)) with
  | nil => simp
  | cons x rest =>
    cases rest with
    | nil => simp
    | cons y rest2 =>
      exfalso
      rw [hf] at hpf
      have hxy : x + debounceMs ≤ y := (List.pairwise_cons.mp hpf).1 y (by simp)
      have hxmem : x ∈ l.filter (fun t => decide (a ≤ t) && decide (t < a + debounceMs)) := by
        rw [hf]; simp
      have hymem : y ∈ l.filter (fun t => decide (a ≤ t) && decide (t < a + debounceMs)) := by
        rw [hf]; simp
      have hx := List.of_mem_filter hxmem
      have hy := List.of_mem_filter hymem
      simp only [Bool.and_eq_true, decide_eq_true_eq] at hx hy
      omega

/-- C8: a file event whose kind does not include a write leaves the watcher
state untouched and delivers nothing; a write event arriving less than
the 2-second debounce interval after the last delivered event is
dropped; consecutive delivered reloads are at least 2 seconds apart, so
any sliding 2-second window contains at most one delivery. -/
theorem C8_debounce_at_most_one_per_window :
    (∀ (last : Int) (e : FsEvent), e.opWrite = false → watchStep last e = (last, false)) ∧
    (∀ (last : Int) (e : FsEvent), e.opWrite = true → e.time - last < debounceMs →
        watchStep last e = (last, false)) ∧
    (∀ (last : Int) (events : List FsEvent),
        List.Chain' (fun a b => a + debounceMs ≤ b) (runWatcher last events)) ∧
    (∀ (last : Int) (events : List FsEvent) (a : Int),
        ((runWatcher last events).filter
          (fun t => decide (a ≤ t) && decide (t < a + debounceMs))).length ≤ 1) := by
  refine ⟨?_, ?_, ?_, ?_⟩
  · intro last e hw
    simp [watchStep, hw]
  · intro last e hw hd
    simp [watchStep, hw, hd]
  · intro last events
    exact (runWatcher_chain events last).1
  · intro last events a
    exact chain_window_at_most_one _ (runWatcher_chain events last).1 a

/-- C8 (witness): a non-write event and a too-early write are both ignored. -/
theorem C8_witness :
    watchStep 10000 { time := 11000, opWrite := true } = (10000, false) ∧
    watchStep 10000 { time := 11000, opWrite := false } = (10000, false) :=
  ⟨C8_debounce_at_most_one_per_window.2.1 10000 { time := 11000, opWrite := true }
    rfl (by decide),
   C8_debounce_at_most_one_per_window.1 10000 { time := 11000, opWrite := false } rfl⟩

/-- The default logger installed by the package `init`, here taken at DEBUG
to exhibit the level it keeps after a failed re-initialization. -/
def preDebugLogger : GoLogger :=
  { level := .debug, filePath := "./logs/app.log", maxSize := 10, maxBackups := 5,
    console := true, closed := false }

/-- C9 (counterexample): with a DEBUG logger installed, re-initializing with
the unknown level string `bogus` leaves the (closed) DEBUG logger as the
default — the logger does not keep operating at INFO. -/
theorem C9_counterexample :
    (InitFromConfig { newOk := true } (some preDebugLogger) "bogus"
        "./logs/app.log" 10 5 true).1 =
      .error "unknown log level: bogus, using default level INFO" ∧
    (InitFromConfig { newOk := true } (some preDebugLogger) "bogus"
        "./logs/app.log" 10 5 true).2 = some (closeLogger preDebugLogger) ∧
    (closeLogger preDebugLogger).level = GoLogLevel.debug ∧
    GoLogLevel.debug ≠ GoLogLevel.info :=
  ⟨rfl, rfl, rfl, by decide⟩

/-- C9 (amended): level parsing is case-insensitive in its resulting level
and in whether it reports an error; `WARN` and `WARNING` both parse to
the warn level; an unknown string makes `ParseLogLevel` return INFO
together with an error (the logged warning), and `InitFromConfig` then
propagates that error without installing a replacement, leaving the
previously installed logger — closed, at its previous level — as the
default. -/
theorem C9_parse_level :
    (∀ s t : String, asciiUpper s = asciiUpper t →
        (ParseLogLevel s).1 = (ParseLogLevel t).1 ∧
        (ParseLogLevel s).2.isSome = (ParseLogLevel t).2.isSome) ∧
    (ParseLogLevel "WARN" = (.warn, none) ∧ ParseLogLevel "Warning" = (.warn, none) ∧
     ParseLogLevel "warn" = (.warn, none) ∧ ParseLogLevel "Error" = (.error, none)) ∧
    (∀ s : String, (ParseLogLevel s).2.isSome = true → (ParseLogLevel s).1 = .info) ∧
    (∀ (env : LogEnv) (l : GoLogger) (s fp : String) (ms mb : Int) (c : Bool) (e : String),
        (ParseLogLevel s).2 = some e →
        InitFromConfig env (some l) s fp ms mb c = (.error e, some (closeLogger l))) := by
  refine ⟨?_, ⟨rfl, rfl, rfl, rfl⟩, ?_, ?_⟩
  · intro s t h
    unfold ParseLogLevel
    rw [h]
    split_ifs <;> simp
  · intro s h
    unfold ParseLogLevel at h ⊢
    split_ifs at h ⊢ <;> simp_all
  · intro env l s fp ms mb c e h
    have hps : ParseLogLevel s = ((ParseLogLevel s).1, some e) := by
      rw [← h]
    unfold InitFromConfig
    rw [hps]

/-- A WARN-level logger used to witness the failed-reload behaviour. -/
def warnLogger : GoLogger :=
  { level := .warn, filePath := "./logs/app.log", maxSize := 10, maxBackups := 5,
    console := false, closed := false }

/-- C9 (witness): an unknown level aborts `InitFromConfig`, keeping the
closed previous logger installed. -/
theorem C9_witness :
    InitFromConfig { newOk := true } (some warnLogger) "LOUD" "./logs/app.log" 10 5 false =
      (.error "unknown log level: LOUD, using default level INFO",
       some (closeLogger warnLogger)) :=
  C9_parse_level.2.2.2 { newOk := true } warnLogger "LOUD" "./logs/app.log" 10 5 false
    "unknown log level: LOUD, using default level INFO" rfl

/-- C10: when `InitFromConfig` runs with a default logger installed, it
closes that logger first; if level parsing or logger construction then
fails, the error is returned, no replacement is installed, and the
global default keeps pointing at the already-closed previous instance,
to which the package-level logging functions still dispatch. -/
theorem C10_failed_init_keeps_closed_logger :
    ∀ (env : LogEnv) (l : GoLogger) (level fp : String) (ms mb : Int) (c : Bool),
      (ParseLogLevel level).2.isSome = true ∨ env.newOk = false →
      exceptIsError (InitFromConfig env (some l) level fp ms mb c).1 = true ∧
      (InitFromConfig env (some l) level fp ms mb c).2 = some (closeLogger l) ∧
      (closeLogger l).closed = true ∧
      logDispatch (InitFromConfig env (some l) level fp ms mb c).2 =
        .viaDefaultLogger (closeLogger l) := by
  intro env l level fp ms mb c hfail
  cases hp : ParseLogLevel level with
  | mk lvl err =>
    cases err with
    | some e =>
      have hstep : InitFromConfig env (some l) level fp ms mb c =
          (.error e, some (closeLogger l)) := by
        unfold InitFromConfig
        rw [hp]
      rw [hstep]
      exact ⟨rfl, rfl, rfl, rfl⟩
    | none =>
      have hnew : env.newOk = false := by
        rcases hfail with hsome | hno
        · rw [hp] at hsome
          simp at hsome
        · exact hno
      have hstep : InitFromConfig env (some l) level fp ms mb c =
          (.error "failed to open log file", some (closeLogger l)) := by
        unfold InitFromConfig
        rw [hp]
        simp [NewLogger, hnew]
      rw [hstep]
      exact ⟨rfl, rfl, rfl, rfl⟩

/-- An INFO-level logger used to witness the failed-construction case. -/
def infoLogger : GoLogger :=
  { level := .info, filePath := "./logs/app.log", maxSize := 10, maxBackups := 5,
    console := true, closed := false }

/-- C10 (witness): with `logger.New` failing, the error is returned and the
closed previous logger stays the dispatch target. -/
theorem C10_witness :
    exceptIsError (InitFromConfig { newOk := false } (some infoLogger)
      "INFO" "./logs/app.log" 10 5 true).1 = true ∧
    (InitFromConfig { newOk := false } (some infoLogger)
      "INFO" "./logs/app.log" 10 5 true).2 = some (closeLogger infoLogger) ∧
    (closeLogger infoLogger).closed = true ∧
    logDispatch (InitFromConfig { newOk := false } (some infoLogger)
      "INFO" "./logs/app.log" 10 5 true).2 = .viaDefaultLogger (closeLogger infoLogger) :=
  C10_failed_init_keeps_closed_logger { newOk := false } infoLogger "INFO"
    "./logs/app.log" 10 5 true (Or.inr rfl)

end DataTrans
